import Mathlib

/-!
Verification of the WalkDarkly shadow-math library (src/math/src/lib.rs).

The library is a set of pure `f64` functions.  We embed them shallowly over
the real numbers: finite `f64` values are modelled as reals, and a result
that can be an IEEE-754 infinity or NaN is modelled by the type `FVal`
below.  The trigonometric functions of the `f64` machine are idealized as
the exact real functions; the one place where the distinction matters (the
test at ninety degrees, which feeds the *double-precision approximation* of
pi over two to `tan`) is modelled with the exact rational value of that
double, `float_pi / 2`.
-/

namespace WalkDarkly

/-- Result of an IEEE-754 double computation, idealized over the reals:
either a finite real value, one of the two infinities, or NaN. -/
inductive FVal where
  | fin (x : ℝ)
  | posInf
  | negInf
  | nan

/-- `approx_equal` from lib.rs: `let abs_diff = (one - two).abs; abs_diff < 1e-10`. -/
noncomputable def approx_equal (one two : ℝ) : Bool :=
  let abs_diff := |one - two|
  decide (abs_diff < 1e-10)

/-- `fully_shaded_len` from lib.rs:
`let tan = theta.tan(); if approx_equal(tan, 0.0) { INFINITY } else { (1.0/tan).abs() * (h1 - h2) }`. -/
noncomputable def fully_shaded_len (h1 h2 theta : ℝ) : FVal :=
  let tan := Real.tan theta
  if approx_equal tan 0 then FVal.posInf
  else FVal.fin (|1 / tan| * (h1 - h2))

/-- IEEE-754 multiplication of a finite double `a` with an extended value:
multiplying a nonzero finite value with an infinity gives an infinity of the
product sign, while `0 * ∞` and anything with NaN give NaN. -/
noncomputable def finMul (a : ℝ) : FVal → FVal
  | FVal.fin x => FVal.fin (a * x)
  | FVal.posInf => if 0 < a then FVal.posInf else if a < 0 then FVal.negInf else FVal.nan
  | FVal.negInf => if 0 < a then FVal.negInf else if a < 0 then FVal.posInf else FVal.nan
  | FVal.nan => FVal.nan

/-- `fully_shaded_area` from lib.rs: `len * fully_shaded_len(h1, h2, theta)`. -/
noncomputable def fully_shaded_area (len h1 h2 theta : ℝ) : FVal :=
  finMul len (fully_shaded_len h1 h2 theta)

/-- `deg_to_rad` from lib.rs: Rust `f64::to_radians`, which computes
`self * (consts::PI / 180.0)`. -/
noncomputable def deg_to_rad (deg : ℝ) : ℝ :=
  deg * (Real.pi / 180)

/-- IEEE-754 negation of an extended value. -/
def fneg : FVal → FVal
  | FVal.fin x => FVal.fin (-x)
  | FVal.posInf => FVal.negInf
  | FVal.negInf => FVal.posInf
  | FVal.nan => FVal.nan

/-- The IEEE-754 double-precision value nearest pi (`std::f64::consts::PI`),
exactly `884279719003555 * 2 ^ (-48)`. -/
noncomputable def float_pi : ℝ := 884279719003555 / 2 ^ 48

/-! ### Helper lemmas -/

lemma approx_equal_iff (a b : ℝ) : approx_equal a b = true ↔ |a - b| < 1e-10 := by
  simp [approx_equal]

lemma fully_shaded_len_of_small_tan (h1 h2 theta : ℝ)
    (h : |Real.tan theta - 0| < 1e-10) :
    fully_shaded_len h1 h2 theta = FVal.posInf := by
  rw [fully_shaded_len]
  simp only [if_pos ((approx_equal_iff _ _).mpr h)]

lemma fully_shaded_len_of_large_tan (h1 h2 theta : ℝ)
    (h : 1e-10 ≤ |Real.tan theta - 0|) :
    fully_shaded_len h1 h2 theta = FVal.fin (|1 / Real.tan theta| * (h1 - h2)) := by
  rw [fully_shaded_len]
  have hb : ¬ (approx_equal (Real.tan theta) 0 = true) := by
    rw [approx_equal_iff]
    exact not_lt.mpr h
  simp only [if_neg hb]

/-! ### Claims -/

/-- C1: for every `h1`, `h2` and angle `theta` whose tangent is not
approximately zero (`|tan theta - 0| ≥ 1e-10`), `fully_shaded_len` returns
`|1 / tan theta| * (h1 - h2)`. -/
theorem fully_shaded_len_formula (h1 h2 theta : ℝ)
    (h : 1e-10 ≤ |Real.tan theta - 0|) :
    fully_shaded_len h1 h2 theta = FVal.fin (|1 / Real.tan theta| * (h1 - h2)) :=
  fully_shaded_len_of_large_tan h1 h2 theta h

/-- Witness for C1 at `h1 = 1000`, `h2 = 100`, `theta = π / 4` (tangent 1). -/
theorem fully_shaded_len_formula_witness :
    1e-10 ≤ |Real.tan (Real.pi / 4) - 0| ∧
      fully_shaded_len 1000 100 (Real.pi / 4) =
        FVal.fin (|1 / Real.tan (Real.pi / 4)| * (1000 - 100)) := by
  have h : 1e-10 ≤ |Real.tan (Real.pi / 4) - 0| := by
    rw [Real.tan_pi_div_four]
    norm_num
  exact ⟨h, fully_shaded_len_formula 1000 100 (Real.pi / 4) h⟩

/-- C2: for every `h1` and `h2` (including `h1 = h2`) and every angle whose
tangent is approximately zero (`|tan theta - 0| < 1e-10`), `fully_shaded_len`
returns positive infinity; the threshold `1e-10` is an absolute tolerance on
the tangent value itself. -/
theorem fully_shaded_len_horizon (h1 h2 theta : ℝ)
    (h : |Real.tan theta - 0| < 1e-10) :
    fully_shaded_len h1 h2 theta = FVal.posInf :=
  fully_shaded_len_of_small_tan h1 h2 theta h

/-- Witness for C2 at `theta = π` (180 degrees, a multiple of 180 degrees),
with equal heights `h1 = h2 = 5`. -/
theorem fully_shaded_len_horizon_witness :
    |Real.tan Real.pi - 0| < 1e-10 ∧
      fully_shaded_len 5 5 Real.pi = FVal.posInf := by
  have h : |Real.tan Real.pi - 0| < 1e-10 := by
    rw [Real.tan_pi]
    norm_num
  exact ⟨h, fully_shaded_len_horizon 5 5 Real.pi h⟩

/-- C3: for every finite `h1`, `h2` and `theta`, `fully_shaded_len` returns
either a finite value or positive infinity, and never NaN. -/
theorem fully_shaded_len_total (h1 h2 theta : ℝ) :
    ((∃ x, fully_shaded_len h1 h2 theta = FVal.fin x) ∨
        fully_shaded_len h1 h2 theta = FVal.posInf) ∧
      fully_shaded_len h1 h2 theta ≠ FVal.nan := by
  by_cases h : |Real.tan theta - 0| < 1e-10
  · rw [fully_shaded_len_of_small_tan h1 h2 theta h]
    exact ⟨Or.inr rfl, by simp⟩
  · rw [fully_shaded_len_of_large_tan h1 h2 theta (not_lt.mp h)]
    exact ⟨Or.inl ⟨_, rfl⟩, by simp⟩

/-- C4: for every run length, heights and angle with a non-infinite result
(tangent not approximately zero), `fully_shaded_area` equals the run length
times the value returned by `fully_shaded_len`. -/
theorem fully_shaded_area_linear (len h1 h2 theta : ℝ)
    (h : 1e-10 ≤ |Real.tan theta - 0|) :
    fully_shaded_area len h1 h2 theta =
      FVal.fin (len * (|1 / Real.tan theta| * (h1 - h2))) := by
  rw [fully_shaded_area, fully_shaded_len_of_large_tan h1 h2 theta h, finMul]

/-- Witness for C4 at `len = 10`, `h1 = 1000`, `h2 = 100`, `theta = π / 4`
(the `shadow_area_45` test: area 9000). -/
theorem fully_shaded_area_linear_witness :
    1e-10 ≤ |Real.tan (Real.pi / 4) - 0| ∧
      fully_shaded_area 10 1000 100 (Real.pi / 4) =
        FVal.fin (10 * (|1 / Real.tan (Real.pi / 4)| * (1000 - 100))) := by
  have h : 1e-10 ≤ |Real.tan (Real.pi / 4) - 0| := by
    rw [Real.tan_pi_div_four]
    norm_num
  exact ⟨h, fully_shaded_area_linear 10 1000 100 (Real.pi / 4) h⟩

/-- C5: at 45 degrees (`π / 4` radians, tangent 1) the shadow length is
exactly `h1 - h2`; in particular at `h1 = 1000`, `h2 = 100` the result is
within `1e-10` of 900. -/
theorem fully_shaded_len_at_45deg :
    (∀ h1 h2 : ℝ, fully_shaded_len h1 h2 (Real.pi / 4) = FVal.fin (h1 - h2)) ∧
      ∃ x : ℝ, fully_shaded_len 1000 100 (Real.pi / 4) = FVal.fin x ∧ |x - 900| < 1e-10 := by
  have h : 1e-10 ≤ |Real.tan (Real.pi / 4) - 0| := by
    rw [Real.tan_pi_div_four]
    norm_num
  have key : ∀ h1 h2 : ℝ, fully_shaded_len h1 h2 (Real.pi / 4) = FVal.fin (h1 - h2) := by
    intro h1 h2
    rw [fully_shaded_len_of_large_tan h1 h2 _ h, Real.tan_pi_div_four]
    norm_num
  refine ⟨key, 900, ?_, by norm_num⟩
  rw [key]
  norm_num

/-- C9: with run length exactly 0 and a tangent that is approximately zero,
`fully_shaded_len` returns positive infinity and `fully_shaded_area`
multiplies `0 * ∞`, which is NaN under IEEE-754 — not 0 and not infinity,
although all inputs are finite. -/
theorem fully_shaded_area_zero_run_nan (h1 h2 theta : ℝ)
    (h : |Real.tan theta| < 1e-10) :
    fully_shaded_len h1 h2 theta = FVal.posInf ∧
      fully_shaded_area 0 h1 h2 theta = FVal.nan := by
  have h' : |Real.tan theta - 0| < 1e-10 := by rwa [sub_zero]
  have hlen := fully_shaded_len_of_small_tan h1 h2 theta h'
  refine ⟨hlen, ?_⟩
  rw [fully_shaded_area, hlen]
  norm_num [finMul]

/-- Witness for C9 at `theta = 0`, `h1 = 1000`, `h2 = 100`. -/
theorem fully_shaded_area_zero_run_nan_witness :
    |Real.tan 0| < 1e-10 ∧
      (fully_shaded_len 1000 100 0 = FVal.posInf ∧
        fully_shaded_area 0 1000 100 0 = FVal.nan) := by
  have h : |Real.tan 0| < 1e-10 := by
    rw [Real.tan_zero]
    norm_num
  exact ⟨h, fully_shaded_area_zero_run_nan 1000 100 0 h⟩

/-- C10: when the tangent is not approximately zero, swapping the two
heights negates the result of `fully_shaded_len`, and the (finite) result is
negative exactly when `h2 > h1`. -/
theorem fully_shaded_len_swap (h1 h2 theta : ℝ)
    (h : 1e-10 ≤ |Real.tan theta|) :
    fully_shaded_len h2 h1 theta = fneg (fully_shaded_len h1 h2 theta) ∧
      ∀ x : ℝ, fully_shaded_len h1 h2 theta = FVal.fin x → (x < 0 ↔ h2 > h1) := by
  have h' : 1e-10 ≤ |Real.tan theta - 0| := by rwa [sub_zero]
  have htan : Real.tan theta ≠ 0 := by
    intro h0
    rw [h0] at h
    norm_num at h
  have hc : 0 < |1 / Real.tan theta| := abs_pos.mpr (one_div_ne_zero htan)
  rw [fully_shaded_len_of_large_tan h1 h2 theta h',
    fully_shaded_len_of_large_tan h2 h1 theta h']
  constructor
  · simp only [fneg]
    congr 1
    ring
  · intro x hx
    injection hx with hxx
    subst hxx
    constructor
    · intro hneg
      nlinarith
    · intro hgt
      have hd : h1 - h2 < 0 := by linarith
      exact mul_neg_of_pos_of_neg hc hd

/-- Witness for C10 at `h1 = 1000`, `h2 = 100`, `theta = π / 4`. -/
theorem fully_shaded_len_swap_witness :
    1e-10 ≤ |Real.tan (Real.pi / 4)| ∧
      (fully_shaded_len 100 1000 (Real.pi / 4) =
          fneg (fully_shaded_len 1000 100 (Real.pi / 4)) ∧
        ∀ x : ℝ, fully_shaded_len 1000 100 (Real.pi / 4) = FVal.fin x →
          (x < 0 ↔ (100 : ℝ) > 1000)) := by
  have h : 1e-10 ≤ |Real.tan (Real.pi / 4)| := by
    rw [Real.tan_pi_div_four]
    norm_num
  exact ⟨h, fully_shaded_len_swap 1000 100 (Real.pi / 4) h⟩

lemma float_pi_half_lt_pi_half : float_pi / 2 < Real.pi / 2 := by
  have h := Real.pi_gt_d20
  rw [float_pi]
  linarith

lemma pi_half_sub_float_pi_half_small : Real.pi / 2 - float_pi / 2 < 1e-16 := by
  have h := Real.pi_lt_d20
  rw [float_pi]
  linarith

/-- C6: at ninety degrees the machine angle is the double-precision
approximation of `π / 2`, whose real tangent exceeds `9e12`, so `1 / tan` is
approximately zero and `fully_shaded_len 1000 100` at that angle is a finite
value within `1e-10` of zero. -/
theorem fully_shaded_len_at_90deg :
    ∃ x : ℝ, fully_shaded_len 1000 100 (float_pi / 2) = FVal.fin x ∧ |x - 0| < 1e-10 := by
  have he0 : 0 < Real.pi / 2 - float_pi / 2 := sub_pos.mpr float_pi_half_lt_pi_half
  have he1 : Real.pi / 2 - float_pi / 2 < 1e-16 := pi_half_sub_float_pi_half_small
  have hcos_eq : Real.cos (float_pi / 2) = Real.sin (Real.pi / 2 - float_pi / 2) :=
    (Real.sin_pi_div_two_sub _).symm
  have hcos_pos : 0 < Real.cos (float_pi / 2) := by
    rw [hcos_eq]
    apply Real.sin_pos_of_pos_of_lt_pi he0
    have h3 := Real.pi_gt_three
    linarith
  have hcos_small : Real.cos (float_pi / 2) < 1e-16 := by
    rw [hcos_eq]
    exact lt_trans (Real.sin_lt he0) he1
  have hsin_eq : Real.sin (float_pi / 2) = Real.cos (Real.pi / 2 - float_pi / 2) :=
    (Real.cos_pi_div_two_sub _).symm
  have hsin_big : (1 : ℝ) / 2 < Real.sin (float_pi / 2) := by
    rw [hsin_eq]
    have hb := Real.one_sub_sq_div_two_le_cos (x := Real.pi / 2 - float_pi / 2)
    nlinarith
  have hcos_le_one := Real.cos_le_one (float_pi / 2)
  have htan_eq : Real.tan (float_pi / 2) =
      Real.sin (float_pi / 2) / Real.cos (float_pi / 2) := Real.tan_eq_sin_div_cos _
  have htan_big : (1 : ℝ) / 2 < Real.tan (float_pi / 2) := by
    rw [htan_eq]
    calc (1 : ℝ) / 2 < Real.sin (float_pi / 2) := hsin_big
    _ ≤ Real.sin (float_pi / 2) / Real.cos (float_pi / 2) := by
        rw [le_div_iff₀ hcos_pos]
        nlinarith
  have htan_huge : (9e12 : ℝ) < Real.tan (float_pi / 2) := by
    rw [htan_eq, lt_div_iff₀ hcos_pos]
    linarith
  have htan_pos : 0 < Real.tan (float_pi / 2) := by linarith
  have hbranch : 1e-10 ≤ |Real.tan (float_pi / 2) - 0| := by
    rw [sub_zero, abs_of_pos htan_pos]
    linarith
  have hcpos : 0 < 1 / Real.tan (float_pi / 2) := one_div_pos.mpr htan_pos
  refine ⟨|1 / Real.tan (float_pi / 2)| * (1000 - 100),
    fully_shaded_len_of_large_tan 1000 100 _ hbranch, ?_⟩
  rw [sub_zero, abs_of_pos hcpos]
  have habs : |(1 / Real.tan (float_pi / 2)) * (1000 - 100)| =
      (1 / Real.tan (float_pi / 2)) * (1000 - 100) := by
    apply abs_of_pos
    have h900 : (0 : ℝ) < 1000 - 100 := by norm_num
    exact mul_pos hcpos h900
  rw [habs, div_mul_eq_mul_div, one_mul, div_lt_iff₀ htan_pos]
  linarith

/-- C7: `deg_to_rad` returns `deg * π / 180` for every input, with no
special-cased inputs. -/
theorem deg_to_rad_formula (deg : ℝ) :
    deg_to_rad deg = deg * Real.pi / 180 := by
  rw [deg_to_rad]
  ring

/-- C8: `approx_equal a b` returns true if and only if `|a - b| < 1e-10`. -/
theorem approx_equal_spec (a b : ℝ) :
    approx_equal a b = true ↔ |a - b| < 1e-10 := by
  simp [approx_equal]

end WalkDarkly
